import Mathlib

/-!
Verification of the translation and resilient-delivery engine of an
Ollama-to-OpenAI proxy gateway.

The Python sources are shallowly embedded as executable Lean definitions:
- `src/models.py` : pydantic request/response models become structures with
  `Option` fields; a pydantic default value becomes the field's default;
  `model_dump(exclude_none=True)` becomes a `...DumpKeys` function listing
  the keys present in the serialized body.
- `src/translators/base.py`, `src/translators/chat.py` : the translator
  functions become pure Lean functions; the nondeterministic timestamp
  helper is passed in as an explicit `ts` argument, and the JSON parser of
  the Python standard library (`json.loads`) is passed in as an explicit
  `jsonParse` argument.
- `src/routers/chat.py` : the streaming router loop becomes a recursive
  function over the list of SSE lines.
- Helpers of the repository that are referenced but whose defining module is
  not part of the source snapshot (`reverse_map_model_name`,
  `validate_model_name`, the circuit breaker and the retry client of
  `src/utils/http_client.py`) are modelled from the specification; each such
  definition carries a doc comment starting with `Modelled from the spec:`.

Numeric JSON values (Python floats) are modelled as rationals `Rat`; this
is adequate because the translator only copies them, never computes with
them.
-/

/-- A `stop` value: `Union[str, List[str]]` in `models.py`. -/
inductive StopVal where
  | str (s : String)
  | list (l : List String)
deriving DecidableEq, Repr

/-- The generation options read by `BaseTranslator.extract_options`
(`src/translators/base.py` lines 79-88).  The inbound `options` value is a
`Dict[str, Any]`; we model exactly the keys the translator inspects, a key
being present iff the field is `some`. -/
structure OllamaOptions where
  temperature : Option Rat := none
  top_p : Option Rat := none
  top_k : Option Int := none
  num_predict : Option Int := none
  stop : Option StopVal := none
deriving DecidableEq, Repr

/-- The dictionary produced by `extract_options`: keys `temperature`,
`top_p`, `top_k`, `max_tokens`, `stop`. -/
structure TransformedOptions where
  temperature : Option Rat := none
  top_p : Option Rat := none
  top_k : Option Int := none
  max_tokens : Option Int := none
  stop : Option StopVal := none
deriving DecidableEq, Repr

/-- `BaseTranslator.extract_options` (`src/translators/base.py` 63-90):
`if not options: return {}`; otherwise each key present in the input is
copied (with `num_predict` renamed to `max_tokens`), absent keys are not
produced.  A `None` options value and an empty dict are both falsy; an
empty dict is `some {}` here and flows through the copy loop, which yields
the same empty result. -/
def extract_options : Option OllamaOptions → TransformedOptions
  | none => {}
  | some o =>
    { temperature := o.temperature
      top_p := o.top_p
      top_k := o.top_k
      max_tokens := o.num_predict
      stop := o.stop }

/-- `BaseTranslator.map_model_name` (`src/translators/base.py` 51-61):
`self.model_mapping.get(model_name, model_name)`.  The mapping dict is
modelled as an association list with distinct keys. -/
def map_model_name (mapping : List (String × String)) (model_name : String) : String :=
  match mapping.lookup model_name with
  | some v => v
  | none => model_name

/-- Modelled from the spec: `reverse_map_model_name` — the module defining it
is not part of the source snapshot.  "reverse lookup is a linear/derived
inverse map built at load time" with "identity fallback": the first pair
whose upstream value equals the name is inverted, otherwise the name passes
through unchanged. -/
def reverse_map_model_name (mapping : List (String × String)) (name : String) : String :=
  match mapping.find? (fun p => p.2 == name) with
  | some p => p.1
  | none => name

/-- Modelled from the spec: `validate_model_name` — the module defining it is
not part of the source snapshot.  "validates the inbound request (non-empty
model name ... raising a `ValidationError` ...)". -/
def validate_model_name (name : String) : Except String Unit :=
  if name = "" then .error "Model name cannot be empty" else .ok ()

/-- `OpenAIMessage` (`src/models.py` 59-64).  `content` is
`Union[str, List[Dict[str, Any]]]` in the source; only the string form is
ever constructed or consumed by the chat translator, so it is embedded as a
string. -/
structure OpenAIMessage where
  role : String
  content : String
  name : Option String := none
deriving DecidableEq, Repr

/-- `OpenAIChatRequest` (`src/models.py` 67-81).  Field defaults are the
pydantic defaults: note that `temperature`, `top_p`, `n`, `stream`,
`presence_penalty` and `frequency_penalty` default to non-`None` values. -/
structure OpenAIChatRequest where
  model : String
  messages : List OpenAIMessage
  temperature : Option Rat := some 1
  top_p : Option Rat := some 1
  n : Option Int := some 1
  stream : Option Bool := some false
  stop : Option StopVal := none
  max_tokens : Option Int := none
  presence_penalty : Option Rat := some 0
  frequency_penalty : Option Rat := some 0
  logit_bias : Option (List (String × Rat)) := none
  user : Option String := none
deriving DecidableEq, Repr

/-- The keys present in `openai_request.model_dump(exclude_none=True)`
(`src/routers/chat.py` 105/112): every field whose value is not `None`, in
declaration order. -/
def openaiDumpKeys (r : OpenAIChatRequest) : List String :=
  ["model", "messages"]
  ++ (if r.temperature.isSome then ["temperature"] else [])
  ++ (if r.top_p.isSome then ["top_p"] else [])
  ++ (if r.n.isSome then ["n"] else [])
  ++ (if r.stream.isSome then ["stream"] else [])
  ++ (if r.stop.isSome then ["stop"] else [])
  ++ (if r.max_tokens.isSome then ["max_tokens"] else [])
  ++ (if r.presence_penalty.isSome then ["presence_penalty"] else [])
  ++ (if r.frequency_penalty.isSome then ["frequency_penalty"] else [])
  ++ (if r.logit_bias.isSome then ["logit_bias"] else [])
  ++ (if r.user.isSome then ["user"] else [])

/-- The pydantic constructor call
`OpenAIChatRequest(model=..., messages=..., stream=..., **options)`
(`src/translators/chat.py` 83-88): a key present in `options` overrides the
field default, an absent key leaves the default; the extra key `top_k`,
which is not a field of `OpenAIChatRequest`, is silently dropped (pydantic
default `extra="ignore"`). -/
def buildOpenAIChatRequest (model : String) (messages : List OpenAIMessage)
    (stream : Bool) (opts : TransformedOptions) : OpenAIChatRequest :=
  { model := model
    messages := messages
    stream := some stream
    temperature := some (opts.temperature.getD 1)
    top_p := some (opts.top_p.getD 1)
    stop := opts.stop
    max_tokens := opts.max_tokens }

/-- `OllamaGenerateRequest` (`src/models.py` 10-21). -/
structure OllamaGenerateRequest where
  model : String
  prompt : String
  images : Option (List String) := none
  stream : Bool := true
  options : Option OllamaOptions := none
  system : Option String := none
  template : Option String := none
  context : Option (List Int) := none
  raw : Bool := false
deriving DecidableEq, Repr

/-- `OllamaChatMessage` (`src/models.py` 24-29). -/
structure OllamaChatMessage where
  role : String
  content : String
  images : Option (List String) := none
deriving DecidableEq, Repr

/-- `OllamaChatRequest` (`src/models.py` 32-39). -/
structure OllamaChatRequest where
  model : String
  messages : List OllamaChatMessage
  stream : Bool := true
  options : Option OllamaOptions := none
  template : Option String := none
deriving DecidableEq, Repr

/-- The `Union[OllamaGenerateRequest, OllamaChatRequest]` accepted by
`ChatTranslator.translate_request`, as a tagged sum. -/
inductive OllamaRequest where
  | generate (r : OllamaGenerateRequest)
  | chat (r : OllamaChatRequest)
deriving DecidableEq, Repr

/-- The `model` attribute shared by both request variants. -/
def OllamaRequest.model : OllamaRequest → String
  | .generate r => r.model
  | .chat r => r.model

/-- The `options` attribute shared by both request variants. -/
def OllamaRequest.options : OllamaRequest → Option OllamaOptions
  | .generate r => r.options
  | .chat r => r.options

/-- The `stream` attribute shared by both request variants. -/
def OllamaRequest.stream : OllamaRequest → Bool
  | .generate r => r.stream
  | .chat r => r.stream

/-- `ChatTranslator._convert_to_messages` (`src/translators/chat.py`
238-272).  Generate requests become an optional system message (only when
`request.system` is truthy, i.e. present and non-empty) followed by the
prompt as a user message.  Chat requests convert each message, coercing any
role outside `["system", "user", "assistant"]` to `"user"`. -/
def convert_to_messages : OllamaRequest → List OpenAIMessage
  | .generate r =>
    (match r.system with
     | some s => if s = "" then [] else [{ role := "system", content := s }]
     | none => [])
    ++ [{ role := "user", content := r.prompt }]
  | .chat r =>
    r.messages.map (fun m =>
      { role := if m.role ∈ (["system", "user", "assistant"] : List String) then m.role else "user"
        content := m.content })

/-- `ChatTranslator.translate_request` (`src/translators/chat.py` 51-107):
validate, convert messages, map the model name, extract options, build the
upstream request.  `stream=ollama_request.stream or False` is the identity
on an already-boolean field.  The guard `if ollama_request.options:` before
`extract_options` is dropped: `extract_options` of a falsy options value is
the empty dict either way. -/
def translate_request (mapping : List (String × String)) (req : OllamaRequest) :
    Except String OpenAIChatRequest :=
  match validate_model_name req.model with
  | .error e => .error e
  | .ok () =>
    let messages := convert_to_messages req
    let model := map_model_name mapping req.model
    let options := extract_options req.options
    .ok (buildOpenAIChatRequest model messages req.stream options)

/-- `OpenAIUsage` (`src/models.py` 92-97). -/
structure OpenAIUsage where
  prompt_tokens : Int
  completion_tokens : Int
  total_tokens : Int
deriving DecidableEq, Repr

/-- `OpenAIChoice` (`src/models.py` 84-89). -/
structure OpenAIChoice where
  index : Int
  message : OpenAIMessage
  finish_reason : Option String := none
deriving DecidableEq, Repr

/-- `OpenAIChatResponse` (`src/models.py` 100-109). -/
structure OpenAIChatResponse where
  id : String
  object : String := "chat.completion"
  created : Int
  model : String
  choices : List OpenAIChoice
  usage : Option OpenAIUsage := none
  system_fingerprint : Option String := none
deriving DecidableEq, Repr

/-- `OllamaGenerateResponse` (`src/models.py` 42-55).  Note: the model has
no `done_reason` field; the `done_reason=` keyword passed by the translator
is an extra constructor argument that pydantic drops. -/
structure OllamaGenerateResponse where
  model : String
  created_at : String
  response : String
  done : Bool
  context : Option (List Int) := none
  total_duration : Option Int := none
  load_duration : Option Int := none
  prompt_eval_count : Option Int := none
  prompt_eval_duration : Option Int := none
  eval_count : Option Int := none
  eval_duration : Option Int := none
deriving DecidableEq, Repr

/-- The keys present in `ollama_response.model_dump(exclude_none=True)`
(`src/routers/chat.py` 280): every field whose value is not `None`, in
declaration order. -/
def ollamaDumpKeys (r : OllamaGenerateResponse) : List String :=
  ["model", "created_at", "response", "done"]
  ++ (if r.context.isSome then ["context"] else [])
  ++ (if r.total_duration.isSome then ["total_duration"] else [])
  ++ (if r.load_duration.isSome then ["load_duration"] else [])
  ++ (if r.prompt_eval_count.isSome then ["prompt_eval_count"] else [])
  ++ (if r.prompt_eval_duration.isSome then ["prompt_eval_duration"] else [])
  ++ (if r.eval_count.isSome then ["eval_count"] else [])
  ++ (if r.eval_duration.isSome then ["eval_duration"] else [])

/-- `ChatTranslator._translate_non_streaming_response`
(`src/translators/chat.py` 313-357).  `content` is the first choice's
message content (`or ""` is the identity on a string) and the empty string
when `choices` is empty; `done` is always `True`; the computed
`finish_reason` is passed as the `done_reason=` keyword, which is not a
field of `OllamaGenerateResponse` and is dropped by pydantic; when `usage`
is present the token counters are copied and the fixed placeholder
durations `int(1e9)`, `int(0.5e9)`, `int(0.5e9)` nanoseconds are set. -/
def translate_non_streaming_response (mapping : List (String × String)) (ts : String)
    (openai_response : OpenAIChatResponse) : OllamaGenerateResponse :=
  let content :=
    match openai_response.choices with
    | choice :: _ => choice.message.content
    | [] => ""
  let base : OllamaGenerateResponse :=
    { model := reverse_map_model_name mapping openai_response.model
      created_at := ts
      response := content
      done := true }
  match openai_response.usage with
  | some usage =>
    { base with
      prompt_eval_count := some usage.prompt_tokens
      eval_count := some usage.completion_tokens
      total_duration := some 1000000000
      prompt_eval_duration := some 500000000
      eval_duration := some 500000000 }
  | none => base

/-- `ChatTranslator.translate_response` (`src/translators/chat.py` 109-143)
restricted to the non-streaming branch: the `isinstance(...,
OpenAIStreamResponse)` dispatch cannot fire for an `OpenAIChatResponse`
argument, which is the only response type defined in `src/models.py`. -/
def translate_response (mapping : List (String × String)) (ts : String)
    (openai_response : OpenAIChatResponse) : OllamaGenerateResponse :=
  translate_non_streaming_response mapping ts openai_response

/-- The `delta` object of a streaming chunk choice, as read by
`translate_streaming_response`: `delta.get("content", "")`. -/
structure StreamDelta where
  content : Option String := none
deriving DecidableEq, Repr

/-- A choice of a streaming chunk, as read by
`translate_streaming_response`: `choice.get("delta", {})` and
`choice.get("finish_reason")`. -/
structure StreamChoice where
  delta : Option StreamDelta := none
  finish_reason : Option String := none
deriving DecidableEq, Repr

/-- A parsed streaming chunk (`Dict[str, Any]`), as read by
`translate_streaming_response`: the `model` key
(`openai_chunk.get("model", ...)`) and the `choices` key (the guard
`"choices" in openai_chunk and openai_chunk["choices"]` tests key presence
and list non-emptiness). -/
structure StreamChunk where
  model : Option String := none
  choices : Option (List StreamChoice) := none
deriving DecidableEq, Repr

/-- The Ollama-format streaming chunk dict built by
`translate_streaming_response`; the `done_reason` key is present only when
the finish reason is truthy. -/
structure OllamaStreamChunk where
  model : String
  created_at : String
  response : String
  done : Bool
  done_reason : Option String := none
deriving DecidableEq, Repr

/-- The `Union[str, dict]` chunk argument of
`translate_streaming_response`, as a tagged sum. -/
inductive SSEChunkInput where
  | str (s : String)
  | obj (c : StreamChunk)
deriving DecidableEq, Repr

/-- Python's `str.strip()` (no argument form): remove leading and trailing
whitespace.  Implemented over the character list so that it evaluates in
the kernel. -/
def pyStrip (s : String) : String :=
  ⟨((s.data.dropWhile Char.isWhitespace).reverse.dropWhile Char.isWhitespace).reverse⟩

/-- Python's `str.startswith(pre)`.  Implemented over the character list so
that it evaluates in the kernel. -/
def pyStartsWith (s pre : String) : Bool :=
  pre.data.isPrefixOf s.data

/-- The dict-processing tail of `ChatTranslator.translate_streaming_response`
(`src/translators/chat.py` 193-217): extract content and finish reason from
the first choice (both defaulted if the choice structure is missing), build
the Ollama chunk with `done = (finish_reason is not None)`, and add the
`done_reason` key only when the finish reason is truthy (non-`None` and
non-empty). -/
def processStreamChunk (mapping : List (String × String)) (ts : String)
    (origModel : String) (c : StreamChunk) : OllamaStreamChunk :=
  let extracted : String × Option String :=
    match c.choices with
    | some (choice :: _) =>
      ((choice.delta.map (fun d => d.content.getD "")).getD "", choice.finish_reason)
    | _ => ("", none)
  { model := reverse_map_model_name mapping (c.model.getD origModel)
    created_at := ts
    response := extracted.1
    done := extracted.2.isSome
    done_reason :=
      match extracted.2 with
      | some r => if r = "" then none else some r
      | none => none }

/-- `ChatTranslator.translate_streaming_response` (`src/translators/chat.py`
145-221).  String input: the stripped `"[DONE]"` sentinel immediately
returns the terminal chunk (`done=True`, `done_reason="stop"`, empty
`response`); a whitespace-only string returns `None`; otherwise the string
is parsed with `json.loads` (passed in as `jsonParse`), a parse failure is
logged and returns `None`, and a parsed dict falls through to the dict
path.  Dict input goes to the dict path directly.  The `is_first_chunk` /
`is_last_chunk` flags are never read by the body and are not modelled. -/
def translate_streaming_response (jsonParse : String → Option StreamChunk)
    (mapping : List (String × String)) (ts : String) (origModel : String) :
    SSEChunkInput → Option OllamaStreamChunk
  | .str s =>
    if pyStrip s = "[DONE]" then
      some { model := origModel, created_at := ts, response := "", done := true,
             done_reason := some "stop" }
    else if pyStrip s = "" then
      none
    else
      match jsonParse s with
      | none => none
      | some c => some (processStreamChunk mapping ts origModel c)
  | .obj c => some (processStreamChunk mapping ts origModel c)

/-- The streaming loop of `stream_response` (`src/routers/chat.py` 172-206)
over the list of SSE lines of the upstream response body: empty lines are
skipped; the literal line `data: [DONE]` yields the translator's terminal
chunk (when non-`None`) and breaks; any other `data: `-prefixed line has
its payload parsed with `json.loads` — a `JSONDecodeError` is logged and
the loop continues — and the parsed dict is translated, a non-`None`
result being yielded; lines without the `data: ` prefix fall through
silently. -/
def stream_response (jsonParse : String → Option StreamChunk)
    (mapping : List (String × String)) (ts : String) (origModel : String) :
    List String → List OllamaStreamChunk
  | [] => []
  | line :: rest =>
    if line = "" then
      stream_response jsonParse mapping ts origModel rest
    else if line = "data: [DONE]" then
      match translate_streaming_response jsonParse mapping ts origModel (.str "[DONE]") with
      | some c => [c]
      | none => []
    else if pyStartsWith line "data: " then
      match jsonParse (line.drop 6) with
      | none => stream_response jsonParse mapping ts origModel rest
      | some data =>
        match translate_streaming_response jsonParse mapping ts origModel (.obj data) with
        | some c => c :: stream_response jsonParse mapping ts origModel rest
        | none => stream_response jsonParse mapping ts origModel rest
    else
      stream_response jsonParse mapping ts origModel rest

/-- The event (if any) that one SSE line contributes to the output of
`stream_response`. -/
def emitOf (jsonParse : String → Option StreamChunk)
    (mapping : List (String × String)) (ts : String) (origModel : String)
    (line : String) : Option OllamaStreamChunk :=
  if line = "" then none
  else if line = "data: [DONE]" then
    translate_streaming_response jsonParse mapping ts origModel (.str "[DONE]")
  else if pyStartsWith line "data: " then
    match jsonParse (line.drop 6) with
    | none => none
    | some data => translate_streaming_response jsonParse mapping ts origModel (.obj data)
  else none

/-- The prefix of the SSE lines that `stream_response` actually consumes:
everything up to and including the first `data: [DONE]` line. -/
def takeThroughDone : List String → List String
  | [] => []
  | line :: rest =>
    if line = "data: [DONE]" then [line] else line :: takeThroughDone rest

/-- The circuit breaker state: `Closed | Open | HalfOpen` ("closed" /
"open" / "half-open" in the source's string representation; `opened` stands
for the source's "open", which is a Lean keyword). -/
inductive CBState where
  | closed
  | opened
  | halfOpen
deriving DecidableEq, Repr

/-- Modelled from the spec: the `CircuitBreaker` of
`src/utils/http_client.py`, which is not part of the source snapshot (only
its tests are).  "CircuitBreakerState: `{ state: Closed|Open|HalfOpen,
failure_count: int, half_open_probe_count: int, opened_at: timestamp }`";
configuration parameters `failure_threshold`, `recovery_timeout` and
`half_open_max_calls` as in §4.4.  Timestamps are abstract naturals. -/
structure CircuitBreaker where
  failure_threshold : Nat := 5
  recovery_timeout : Nat := 60
  half_open_max_calls : Nat := 3
  state : CBState := .closed
  failure_count : Nat := 0
  half_open_calls : Nat := 0
  half_open_successes : Nat := 0
  opened_at : Nat := 0
deriving DecidableEq, Repr

/-- Modelled from the spec: `record_failure` — "each failure increments
`failure_count`; reaching `failure_threshold` transitions to Open and
records `opened_at`"; "any single failure in this state [HalfOpen]
immediately reopens the breaker". -/
def record_failure (cb : CircuitBreaker) (now : Nat) : CircuitBreaker :=
  match cb.state with
  | .halfOpen =>
    { cb with state := .opened, opened_at := now,
              failure_count := cb.failure_count + 1,
              half_open_calls := 0, half_open_successes := 0 }
  | _ =>
    let fc := cb.failure_count + 1
    if cb.failure_threshold ≤ fc then
      { cb with state := .opened, failure_count := fc, opened_at := now }
    else
      { cb with failure_count := fc }

/-- Modelled from the spec: `record_success` — "any success increments a
success counter — reaching `half_open_max_calls` consecutive/total
successes resets to Closed with `failure_count=0`".  A success in the
Closed state resets the consecutive-failure counter ("after
`failure_threshold` *consecutive* failures"). -/
def record_success (cb : CircuitBreaker) : CircuitBreaker :=
  match cb.state with
  | .halfOpen =>
    let sc := cb.half_open_successes + 1
    if cb.half_open_max_calls ≤ sc then
      { cb with state := .closed, failure_count := 0,
                half_open_calls := 0, half_open_successes := 0 }
    else
      { cb with half_open_successes := sc }
  | .closed => { cb with failure_count := 0 }
  | .opened => cb

/-- Modelled from the spec: the lazy Open→HalfOpen transition — "after
`recovery_timeout` elapses since `opened_at`, the breaker logically becomes
HalfOpen on the next inspection (lazy transition, not a timer
callback)". -/
def check_state (cb : CircuitBreaker) (now : Nat) : CircuitBreaker :=
  if cb.state = .opened ∧ cb.opened_at + cb.recovery_timeout ≤ now then
    { cb with state := .halfOpen, half_open_calls := 0, half_open_successes := 0 }
  else cb

/-- The outcome of one upstream I/O attempt. -/
inductive CallOutcome where
  | success
  | failure
deriving DecidableEq, Repr

/-- Modelled from the spec: one guarded call through the circuit breaker.
Open rejects "immediately with a network-error signal (no call attempted)",
modelled as result `none` with the would-be I/O outcome `io` left
unconsulted; HalfOpen admits "a bounded number of probe calls",
counted by `half_open_calls` against `half_open_max_calls`; an admitted
call performs the I/O and records its outcome.  The returned pair is the
updated breaker and `some io` iff the call was attempted. -/
def cbCall (cb : CircuitBreaker) (now : Nat) (io : CallOutcome) :
    CircuitBreaker × Option CallOutcome :=
  let cb := check_state cb now
  match cb.state with
  | .opened => (cb, none)
  | .halfOpen =>
    if cb.half_open_calls < cb.half_open_max_calls then
      let cb := { cb with half_open_calls := cb.half_open_calls + 1 }
      match io with
      | .success => (record_success cb, some .success)
      | .failure => (record_failure cb now, some .failure)
    else
      (cb, none)
  | .closed =>
    match io with
    | .success => (record_success cb, some .success)
    | .failure => (record_failure cb now, some .failure)

/-- `n` consecutive calls through the breaker, all with the same I/O
outcome, at a fixed inspection time. -/
def cbIterate (now : Nat) (io : CallOutcome) : Nat → CircuitBreaker → CircuitBreaker
  | 0, cb => cb
  | n + 1, cb => cbIterate now io n (cbCall cb now io).1

/-- Modelled from the spec: the default retryable-status classification of
the retry policy — "response status codes in a configurable retryable set
(default: 408, 429, 5xx) — never on 4xx outside that set". -/
def retryable_status (s : Nat) : Bool :=
  s = 408 || s = 429 || (500 ≤ s && s < 600)

/-- Modelled from the spec: the attempt loop of the `RetryClient` of
`src/utils/http_client.py`, which is not part of the source snapshot (only
its tests are).  `resp i` is the status code the upstream returns on the
`i`-th attempt (1-indexed); `fuel` is the number of retries still allowed
after the current attempt.  A retryable status with retries remaining
triggers another attempt; otherwise the loop returns the pair (index of the
last attempt made, its status code unchanged). -/
def retryFrom (resp : Nat → Nat) : Nat → Nat → Nat × Nat
  | 0, i => (i, resp i)
  | fuel + 1, i =>
    let s := resp i
    if retryable_status s then retryFrom resp fuel (i + 1) else (i, s)

/-- Modelled from the spec: a full delivery of one call under
`max_retries` ("a call ... is attempted exactly `max_retries` times"):
attempts are numbered from 1 and at most `max_retries` are made. -/
def retryCall (max_retries : Nat) (resp : Nat → Nat) : Nat × Nat :=
  retryFrom resp (max_retries - 1) 1

/-- A concrete generate request whose options omit every generation
parameter. -/
def c1Request : OllamaRequest :=
  .generate { model := "llama2", prompt := "Hi", stream := false }

/-- The upstream request that `translate_request` produces for
`c1Request`: every pydantic default is in place. -/
def c1Upstream : OpenAIChatRequest :=
  { model := "llama2"
    messages := [{ role := "user", content := "Hi" }]
    stream := some false }

/-- A concrete upstream response with an empty `choices` list. -/
def emptyChoicesResponse : OpenAIChatResponse :=
  { id := "chatcmpl-0", created := 0, model := "gpt-4", choices := [] }

/-- A concrete upstream response reporting usage counters. -/
def usageResponse : OpenAIChatResponse :=
  { id := "chatcmpl-1", created := 0, model := "gpt-4"
    choices := [{ index := 0
                  message := { role := "assistant", content := "Hello!" }
                  finish_reason := some "stop" }]
    usage := some { prompt_tokens := 10, completion_tokens := 5, total_tokens := 15 } }

/-- A concrete upstream response with no usage object. -/
def noUsageResponse : OpenAIChatResponse :=
  { id := "chatcmpl-2", created := 0, model := "gpt-4"
    choices := [{ index := 0
                  message := { role := "assistant", content := "Hello!" }
                  finish_reason := some "stop" }] }

/-- A parsed streaming chunk carrying both a content delta and a finish
reason, as the upstream sends for the last content chunk before the
`[DONE]` sentinel. -/
def finishChunk : StreamChunk :=
  { choices := some [{ delta := some { content := some "Hi" }
                       finish_reason := some "stop" }] }

/-- The JSON text of `finishChunk`. -/
def finishPayload : String :=
  "\x7b\"choices\":[\x7b\"delta\":\x7b\"content\":\"Hi\"\x7d,\"finish_reason\":\"stop\"\x7d]\x7d"

/-- `json.loads` evaluated at the concrete payloads used in the closed
examples below: it parses `finishPayload` to `finishChunk` and fails on
everything else. -/
def sampleParse (s : String) : Option StreamChunk :=
  if s = finishPayload then some finishChunk else none

/-- A concrete SSE stream: one content chunk carrying a finish reason,
then the `[DONE]` sentinel. -/
def finishThenDoneLines : List String :=
  ["data: " ++ finishPayload, "data: [DONE]"]

/-- A concrete chat request containing a message with the role `"tool"`,
which the data model treats as just another string role. -/
def toolRoleRequest : OllamaChatRequest :=
  { model := "llama2"
    messages := [{ role := "user", content := "look this up" },
                 { role := "tool", content := "result: 42" }]
    stream := false }

/-- A concrete circuit breaker in the Closed state with small limits. -/
def cbClosed : CircuitBreaker :=
  { failure_threshold := 2, recovery_timeout := 10, half_open_max_calls := 2 }

/-- A concrete circuit breaker that opened at time 100. -/
def cbOpened : CircuitBreaker :=
  { cbClosed with state := .opened, failure_count := 2, opened_at := 100 }

/-- A concrete circuit breaker in the HalfOpen state with no probes made. -/
def cbHalf : CircuitBreaker :=
  { cbClosed with state := .halfOpen, failure_count := 2, opened_at := 100 }

/-- A concrete circuit breaker in the HalfOpen state whose probe budget is
exhausted. -/
def cbHalfExhausted : CircuitBreaker :=
  { cbHalf with half_open_calls := 2 }

theorem lookup_eq_none_of_no_key (mapping : List (String × String)) (n : String)
    (hk : ∀ p ∈ mapping, p.1 ≠ n) : mapping.lookup n = none := by
  induction mapping with
  | nil => rfl
  | cons p t ih =>
    have hp : (n == p.1) = false := by
      have := hk p (List.mem_cons_self p t)
      simp [beq_eq_false_iff_ne]
      exact fun h => this h.symm
    simp [List.lookup, hp]
    intro a b hab h
    exact hk (a, b) (List.mem_cons_of_mem p hab) h.symm

/-- Claim C8: two independent universals — a model name that is not a key
of the mapping passes through `map_model_name` unchanged (whether or not
it occurs as a value), and a name that is not a value of the mapping
passes through `reverse_map_model_name` unchanged (whether or not it
occurs as a key). -/
theorem C8_unmapped_names_pass_through (mapping : List (String × String)) (n : String) :
    ((∀ p ∈ mapping, p.1 ≠ n) → map_model_name mapping n = n) ∧
    ((∀ p ∈ mapping, p.2 ≠ n) → reverse_map_model_name mapping n = n) := by
  constructor
  · intro hk
    unfold map_model_name
    rw [lookup_eq_none_of_no_key mapping n hk]
  · intro hv
    unfold reverse_map_model_name
    have : mapping.find? (fun p => p.2 == n) = none := by
      rw [List.find?_eq_none]
      intro p hp
      simpa using hv p hp
    rw [this]

/-- Closed witness for C8 exercising the two directions independently:
`"gpt-3.5-turbo"` is a value but not a key, yet passes through the forward
map; `"llama2"` is a key but not a value, yet passes through the reverse
map. -/
theorem C8_witness :
    map_model_name [("llama2", "gpt-3.5-turbo")] "gpt-3.5-turbo" = "gpt-3.5-turbo" ∧
    reverse_map_model_name [("llama2", "gpt-3.5-turbo")] "llama2" = "llama2" :=
  ⟨(C8_unmapped_names_pass_through [("llama2", "gpt-3.5-turbo")] "gpt-3.5-turbo").1
     (by decide),
   (C8_unmapped_names_pass_through [("llama2", "gpt-3.5-turbo")] "llama2").2
     (by decide)⟩

/-- Claim C2: an upstream chat-completion response with an empty `choices`
list translates to an inbound response with empty `response` text and
`done = true`; the translation is a total function, so no error is
raised. -/
theorem C2_empty_choices (mapping : List (String × String)) (ts : String)
    (resp : OpenAIChatResponse) (h : resp.choices = []) :
    (translate_response mapping ts resp).response = "" ∧
    (translate_response mapping ts resp).done = true := by
  unfold translate_response translate_non_streaming_response
  rw [h]
  cases resp.usage <;> simp

/-- Closed witness for C2 at a concrete empty-choices response. -/
theorem C2_witness :
    (translate_response [] "t0" emptyChoicesResponse).response = "" ∧
    (translate_response [] "t0" emptyChoicesResponse).done = true :=
  C2_empty_choices [] "t0" emptyChoicesResponse rfl

/-- Claim C3: the `"[DONE]"` stream-end sentinel (any string stripping to
it) immediately yields the terminal inbound event: `done = true`, the
fixed `done_reason = "stop"`, and empty response text. -/
theorem C3_done_sentinel (jsonParse : String → Option StreamChunk)
    (mapping : List (String × String)) (ts origModel s : String)
    (h : pyStrip s = "[DONE]") :
    translate_streaming_response jsonParse mapping ts origModel (.str s) =
      some { model := origModel, created_at := ts, response := "", done := true,
             done_reason := some "stop" } := by
  unfold translate_streaming_response
  simp [h]

/-- Closed witness for C3 at the literal sentinel string. -/
theorem C3_witness :
    translate_streaming_response (fun _ => none) [] "t0" "llama2" (.str "[DONE]") =
      some { model := "llama2", created_at := "t0", response := "", done := true,
             done_reason := some "stop" } :=
  C3_done_sentinel (fun _ => none) [] "t0" "llama2" "[DONE]" (by decide)

/-- Claim C9: when the upstream reports usage, the token counters are
copied into the inbound response and the fixed placeholder durations are
synthesized (total 1e9 ns = one flat second); when usage is absent the
counter fields are `None` and hence absent from the serialized body, not
zero. -/
theorem C9_usage_counters (mapping : List (String × String)) (ts : String)
    (resp : OpenAIChatResponse) :
    (∀ u, resp.usage = some u →
      (translate_response mapping ts resp).prompt_eval_count = some u.prompt_tokens ∧
      (translate_response mapping ts resp).eval_count = some u.completion_tokens ∧
      (translate_response mapping ts resp).total_duration = some 1000000000 ∧
      (translate_response mapping ts resp).prompt_eval_duration = some 500000000 ∧
      (translate_response mapping ts resp).eval_duration = some 500000000) ∧
    (resp.usage = none →
      (translate_response mapping ts resp).prompt_eval_count = none ∧
      (translate_response mapping ts resp).eval_count = none ∧
      "prompt_eval_count" ∉ ollamaDumpKeys (translate_response mapping ts resp) ∧
      "eval_count" ∉ ollamaDumpKeys (translate_response mapping ts resp)) := by
  constructor
  · intro u hu
    unfold translate_response translate_non_streaming_response
    rw [hu]
    simp
  · intro hn
    unfold translate_response translate_non_streaming_response
    rw [hn]
    simp [ollamaDumpKeys]

/-- Closed witness for C9, applying the theorem both at a response with
usage and at one without. -/
theorem C9_witness :
    ((translate_response [] "t0" usageResponse).prompt_eval_count = some 10 ∧
     (translate_response [] "t0" usageResponse).eval_count = some 5 ∧
     (translate_response [] "t0" usageResponse).total_duration = some 1000000000 ∧
     (translate_response [] "t0" usageResponse).prompt_eval_duration = some 500000000 ∧
     (translate_response [] "t0" usageResponse).eval_duration = some 500000000) ∧
    ((translate_response [] "t0" noUsageResponse).prompt_eval_count = none ∧
     (translate_response [] "t0" noUsageResponse).eval_count = none ∧
     "prompt_eval_count" ∉ ollamaDumpKeys (translate_response [] "t0" noUsageResponse) ∧
     "eval_count" ∉ ollamaDumpKeys (translate_response [] "t0" noUsageResponse)) :=
  ⟨(C9_usage_counters [] "t0" usageResponse).1
      { prompt_tokens := 10, completion_tokens := 5, total_tokens := 15 } rfl,
   (C9_usage_counters [] "t0" noUsageResponse).2 rfl⟩

/-- Claim C1 (amended): `extract_options` copies exactly the option fields
present on the inbound request and never invents an absent one; a
parameter whose `OpenAIChatRequest` default is `None` (`max_tokens`,
`stop`) is therefore omitted from the outbound call body when absent; but
the parameters whose pydantic defaults are non-`None` — `temperature`
(1.0), `top_p` (1.0), `n` (1), `presence_penalty` (0.0),
`frequency_penalty` (0.0) — appear in the outbound body with those
data-model defaults even when absent from the inbound OptionSet, because
`model_dump(exclude_none=True)` only drops `None` fields. -/
theorem C1_amended_absent_options (mapping : List (String × String))
    (req : OllamaRequest) (r : OpenAIChatRequest)
    (h : translate_request mapping req = .ok r) :
    ((extract_options req.options).temperature = req.options.bind OllamaOptions.temperature ∧
     (extract_options req.options).top_p = req.options.bind OllamaOptions.top_p ∧
     (extract_options req.options).top_k = req.options.bind OllamaOptions.top_k ∧
     (extract_options req.options).max_tokens = req.options.bind OllamaOptions.num_predict ∧
     (extract_options req.options).stop = req.options.bind OllamaOptions.stop) ∧
    (req.options.bind OllamaOptions.num_predict = none → "max_tokens" ∉ openaiDumpKeys r) ∧
    (req.options.bind OllamaOptions.stop = none → "stop" ∉ openaiDumpKeys r) ∧
    (req.options.bind OllamaOptions.temperature = none →
      r.temperature = some 1 ∧ "temperature" ∈ openaiDumpKeys r) ∧
    (req.options.bind OllamaOptions.top_p = none →
      r.top_p = some 1 ∧ "top_p" ∈ openaiDumpKeys r) ∧
    (r.n = some 1 ∧ "n" ∈ openaiDumpKeys r) ∧
    (r.presence_penalty = some 0 ∧ "presence_penalty" ∈ openaiDumpKeys r) ∧
    (r.frequency_penalty = some 0 ∧ "frequency_penalty" ∈ openaiDumpKeys r) := by
  unfold translate_request validate_model_name at h
  by_cases hm : req.model = ""
  · simp [hm] at h
  · simp [hm] at h
    subst h
    cases ho : req.options with
    | none =>
      simp [extract_options, buildOpenAIChatRequest, openaiDumpKeys]
    | some o =>
      simp [extract_options, buildOpenAIChatRequest, openaiDumpKeys]
      exact ⟨fun h1 => by simp [h1], fun h2 => by simp [h2]⟩

/-- Counterexample to claim C1 as stated: a generate request with no
options at all translates to an upstream request whose serialized body
still contains `temperature` (= 1.0) and `presence_penalty` (= 0.0): the
outbound call does not omit the absent parameters. -/
theorem C1_counterexample :
    translate_request [] c1Request = .ok c1Upstream ∧
    c1Request.options = none ∧
    c1Upstream.temperature = some 1 ∧
    "temperature" ∈ openaiDumpKeys c1Upstream ∧
    "presence_penalty" ∈ openaiDumpKeys c1Upstream := by
  refine ⟨rfl, rfl, rfl, ?_, ?_⟩ <;> decide

/-- Witness for the amended claim C1 at a concrete request without
options. -/
theorem C1_witness :
    (extract_options c1Request.options).temperature = none ∧
    "max_tokens" ∉ openaiDumpKeys c1Upstream ∧
    "stop" ∉ openaiDumpKeys c1Upstream ∧
    c1Upstream.temperature = some 1 ∧
    c1Upstream.n = some 1 := by
  have h := C1_amended_absent_options [] c1Request c1Upstream rfl
  exact ⟨h.1.1.trans rfl, h.2.1 rfl, h.2.2.1 rfl, (h.2.2.2.1 rfl).1,
         (h.2.2.2.2.2.1).1⟩

/-- Claim C10: a chat message whose role is outside
`{system, user, assistant}` — including `"tool"` — is coerced to role
`"user"` in the upstream message list, at the same position and with its
content preserved. -/
theorem C10_unknown_roles_coerced (mapping : List (String × String))
    (creq : OllamaChatRequest) (r : OpenAIChatRequest)
    (h : translate_request mapping (.chat creq) = .ok r)
    (i : Nat) (hi : i < creq.messages.length)
    (hrole : (creq.messages.get ⟨i, hi⟩).role ∉ (["system", "user", "assistant"] : List String)) :
    r.messages.length = creq.messages.length ∧
    r.messages.get? i =
      some { role := "user", content := (creq.messages.get ⟨i, hi⟩).content } := by
  unfold translate_request validate_model_name at h
  by_cases hm : (OllamaRequest.chat creq).model = ""
  · simp [hm] at h
  · simp [hm] at h
    subst h
    unfold buildOpenAIChatRequest convert_to_messages
    constructor
    · simp
    · rw [List.get?_map, List.get?_eq_get hi]
      simp [hrole]
      intro hor
      have hrole' : ¬(creq.messages[i].role = "system" ∨ creq.messages[i].role = "user" ∨
          creq.messages[i].role = "assistant") := by simpa using hrole
      exact absurd hor hrole'

/-- Closed witness for C10: the `"tool"` role message of a concrete chat
request is coerced to a `"user"` message at its position. -/
theorem C10_witness :
    (translate_request [] (.chat toolRoleRequest) =
      .ok (buildOpenAIChatRequest "llama2" (convert_to_messages (.chat toolRoleRequest))
            false (extract_options none))) ∧
    "tool" ∉ (["system", "user", "assistant"] : List String) ∧
    (buildOpenAIChatRequest "llama2" (convert_to_messages (.chat toolRoleRequest))
        false (extract_options none)).messages.get? 1 =
      some { role := "user", content := "result: 42" } :=
  ⟨rfl, by decide,
   (C10_unknown_roles_coerced [] toolRoleRequest _ rfl 1 (by decide) (by decide)).2⟩

/-- Claim C4: a streaming increment whose raw text is not parseable as
JSON produces no inbound event — the translator returns `None` — and the
router loop goes on with the remaining increments of the same stream
unchanged: a malformed increment never aborts the stream.  (The logging
side effect is outside the embedding.) -/
theorem C4_malformed_chunk_skipped (jsonParse : String → Option StreamChunk)
    (mapping : List (String × String)) (ts origModel : String)
    (s line : String) (rest : List String)
    (hs1 : pyStrip s ≠ "[DONE]") (hs2 : pyStrip s ≠ "") (hs3 : jsonParse s = none)
    (hl1 : pyStartsWith line "data: " = true) (hl2 : line ≠ "data: [DONE]")
    (hl3 : jsonParse (line.drop 6) = none) :
    translate_streaming_response jsonParse mapping ts origModel (.str s) = none ∧
    stream_response jsonParse mapping ts origModel (line :: rest) =
      stream_response jsonParse mapping ts origModel rest := by
  constructor
  · unfold translate_streaming_response
    simp [hs1, hs2, hs3]
  · have hne : line ≠ "" := by
      intro h
      rw [h] at hl1
      exact absurd hl1 (by decide)
    conv_lhs => rw [stream_response.eq_def]
    simp [hne, hl2, hl1, hl3]

/-- Closed witness for C4 at a concrete malformed increment. -/
theorem C4_witness :
    translate_streaming_response (fun _ => none) [] "t0" "llama2" (.str "not json") = none ∧
    stream_response (fun _ => none) [] "t0" "llama2" ["data: not json", "data: [DONE]"] =
      stream_response (fun _ => none) [] "t0" "llama2" ["data: [DONE]"] :=
  C4_malformed_chunk_skipped (fun _ => none) [] "t0" "llama2" "not json" "data: not json"
    ["data: [DONE]"] (by decide) (by decide) rfl (by decide) (by decide) rfl

/-- Claim C5 (amended): within one streaming call the inbound events are
exactly the order-preserving image (`filterMap`) of the upstream lines the
loop consumes — the prefix up to and including the first `data: [DONE]`
line — so events appear in arrival order and nothing is emitted after the
sentinel's terminal event; however `done=true` is not exclusive to the
terminal event: an increment carrying a `finish_reason` also yields
`done=true`, so `done=true` can be emitted more than once and before the
last event. -/
theorem C5_amended_ordering (jsonParse : String → Option StreamChunk)
    (mapping : List (String × String)) (ts origModel : String)
    (lines : List String) :
    stream_response jsonParse mapping ts origModel lines =
      (takeThroughDone lines).filterMap (emitOf jsonParse mapping ts origModel) := by
  induction lines with
  | nil => rfl
  | cons line rest ih =>
    by_cases h2 : line = "data: [DONE]"
    · subst h2
      have hdone : translate_streaming_response jsonParse mapping ts origModel
          (.str "[DONE]") =
          some { model := origModel, created_at := ts, response := "", done := true,
                 done_reason := some "stop" } := by
        unfold translate_streaming_response
        simp [show pyStrip "[DONE]" = "[DONE]" by decide]
      conv_lhs => rw [stream_response.eq_def]
      rw [takeThroughDone]
      simp [emitOf, hdone]
    · by_cases h1 : line = ""
      · subst h1
        conv_lhs => rw [stream_response.eq_def]
        rw [takeThroughDone]
        simp [emitOf, ih]
      · by_cases h3 : pyStartsWith line "data: " = true
        · conv_lhs => rw [stream_response.eq_def]
          rw [takeThroughDone]
          cases hp : jsonParse (line.drop 6) with
          | none => simp [h1, h2, h3, hp, emitOf, ih]
          | some d =>
            simp [h1, h2, h3, hp, emitOf, ih, translate_streaming_response]
        · conv_lhs => rw [stream_response.eq_def]
          rw [takeThroughDone]
          simp [h1, h2, h3, emitOf, ih]

/-- Counterexample to claim C5 as stated: in a concrete stream whose last
content chunk carries `finish_reason="stop"` followed by the `[DONE]`
sentinel, the router emits two events and both have `done = true` — a
`done=true` event is emitted twice, and the first of them is not the last
event of the stream. -/
theorem C5_counterexample :
    (stream_response sampleParse [] "t0" "llama2" finishThenDoneLines).map
        (fun c => c.done) = [true, true] := by
  decide

theorem check_state_of_closed (cb : CircuitBreaker) (now : Nat)
    (hs : cb.state = .closed) : check_state cb now = cb := by
  unfold check_state
  simp [hs]

theorem check_state_of_halfOpen (cb : CircuitBreaker) (now : Nat)
    (hs : cb.state = .halfOpen) : check_state cb now = cb := by
  unfold check_state
  simp [hs]

theorem cb_failures_drive_open (now : Nat) :
    ∀ (n : Nat) (cb : CircuitBreaker), cb.state = .closed →
      cb.failure_count + n = cb.failure_threshold → 1 ≤ n →
      (cbIterate now .failure n cb).state = .opened := by
  intro n
  induction n with
  | zero =>
    intro cb _ _ h
    exact absurd h (by omega)
  | succ m ih =>
    intro cb hs hc _
    have hstep : (cbCall cb now .failure).1 = record_failure cb now := by
      unfold cbCall
      rw [check_state_of_closed cb now hs]
      simp [hs]
    rw [cbIterate, hstep]
    cases m with
    | zero =>
      have : record_failure cb now =
          { cb with state := .opened, failure_count := cb.failure_count + 1,
                    opened_at := now } := by
        unfold record_failure
        rw [hs]
        simp [show cb.failure_threshold ≤ cb.failure_count + 1 by omega]
      rw [cbIterate, this]
    | succ k =>
      have hlt : ¬ cb.failure_threshold ≤ cb.failure_count + 1 := by omega
      have : record_failure cb now = { cb with failure_count := cb.failure_count + 1 } := by
        unfold record_failure
        rw [hs]
        simp [hlt]
      rw [this]
      exact ih _ hs (by simp; omega) (by omega)

theorem cb_successes_drive_closed (now : Nat) :
    ∀ (n : Nat) (cb : CircuitBreaker), cb.state = .halfOpen →
      cb.half_open_calls = cb.half_open_successes →
      cb.half_open_successes + n = cb.half_open_max_calls → 1 ≤ n →
      (cbIterate now .success n cb).state = .closed ∧
      (cbIterate now .success n cb).failure_count = 0 := by
  intro n
  induction n with
  | zero =>
    intro cb _ _ _ h
    exact absurd h (by omega)
  | succ m ih =>
    intro cb hs hcs hc _
    have hadmit : (check_state cb now).half_open_calls < (check_state cb now).half_open_max_calls := by
      rw [check_state_of_halfOpen cb now hs]
      omega
    have hstep : (cbCall cb now .success).1 =
        record_success { cb with half_open_calls := cb.half_open_calls + 1 } := by
      unfold cbCall
      rw [check_state_of_halfOpen cb now hs]
      rw [check_state_of_halfOpen cb now hs] at hadmit
      simp [hs, hadmit]
    rw [cbIterate, hstep]
    cases m with
    | zero =>
      have : record_success { cb with half_open_calls := cb.half_open_calls + 1 } =
          { cb with state := .closed, failure_count := 0,
                    half_open_calls := 0, half_open_successes := 0 } := by
        unfold record_success
        simp [hs, show cb.half_open_max_calls ≤ cb.half_open_successes + 1 by omega]
      rw [cbIterate, this]
      exact ⟨rfl, rfl⟩
    | succ k =>
      have hlt : ¬ cb.half_open_max_calls ≤ cb.half_open_successes + 1 := by omega
      have : record_success { cb with half_open_calls := cb.half_open_calls + 1 } =
          { cb with half_open_calls := cb.half_open_calls + 1,
                    half_open_successes := cb.half_open_successes + 1 } := by
        unfold record_success
        simp [hs, hlt]
      rw [this]
      exact ih _ hs (by simp [hcs]) (by simp; omega) (by omega)

/-- Claim C6 (spec-modelled): the circuit-breaker state machine.
(1) From Closed with a clean slate, `failure_threshold` consecutive
failures drive the breaker Open; (2) while Open before `recovery_timeout`
has elapsed, a call is rejected without attempting I/O — the result does
not depend on what the I/O would have returned; (3) once
`recovery_timeout` has elapsed since `opened_at`, a probe call is
admitted; (4) HalfOpen admits only a bounded number of probes
(`half_open_max_calls`); (5) `half_open_max_calls` consecutive probe
successes return it to Closed with `failure_count` reset to 0; and (6) a
single failure while HalfOpen immediately reopens it. -/
theorem C6_circuit_breaker (cb : CircuitBreaker) (now : Nat) (io : CallOutcome) :
    (cb.state = .closed → cb.failure_count = 0 → 1 ≤ cb.failure_threshold →
      (cbIterate now .failure cb.failure_threshold cb).state = .opened) ∧
    (cb.state = .opened → now < cb.opened_at + cb.recovery_timeout →
      (cbCall cb now io).2 = none ∧ cbCall cb now .success = cbCall cb now .failure) ∧
    (cb.state = .opened → cb.opened_at + cb.recovery_timeout ≤ now →
      0 < cb.half_open_max_calls → (cbCall cb now io).2 = some io) ∧
    (cb.state = .halfOpen → cb.half_open_max_calls ≤ cb.half_open_calls →
      (cbCall cb now io).2 = none) ∧
    (cb.state = .halfOpen → cb.half_open_calls = 0 → cb.half_open_successes = 0 →
      1 ≤ cb.half_open_max_calls →
      (cbIterate now .success cb.half_open_max_calls cb).state = .closed ∧
      (cbIterate now .success cb.half_open_max_calls cb).failure_count = 0) ∧
    (cb.state = .halfOpen → cb.half_open_calls < cb.half_open_max_calls →
      (cbCall cb now .failure).1.state = .opened) := by
  refine ⟨?_, ?_, ?_, ?_, ?_, ?_⟩
  · intro hs hf hth
    exact cb_failures_drive_open now cb.failure_threshold cb hs (by omega) hth
  · intro hs ht
    have hcs : check_state cb now = cb := by
      unfold check_state
      simp [hs]
      omega
    constructor
    · unfold cbCall
      rw [hcs]
      simp [hs]
    · unfold cbCall
      rw [hcs]
      simp [hs]
  · intro hs ht hmax
    have hcs : check_state cb now =
        { cb with state := .halfOpen, half_open_calls := 0, half_open_successes := 0 } := by
      unfold check_state
      simp [hs, ht]
    unfold cbCall
    rw [hcs]
    cases io <;> simp [hmax]
  · intro hs hb
    unfold cbCall
    rw [check_state_of_halfOpen cb now hs]
    simp [hs, show ¬ cb.half_open_calls < cb.half_open_max_calls by omega]
  · intro hs hcalls hsucc hmax
    exact cb_successes_drive_closed now cb.half_open_max_calls cb hs
      (by omega) (by omega) hmax
  · intro hs hcalls
    unfold cbCall
    rw [check_state_of_halfOpen cb now hs]
    simp [hs, hcalls]
    unfold record_failure
    simp [hs]

/-- Closed witness for C6, applying the theorem to concrete breakers in
each of its states. -/
theorem C6_witness :
    (cbIterate 0 .failure 2 cbClosed).state = .opened ∧
    ((cbCall cbOpened 105 .success).2 = none ∧
      cbCall cbOpened 105 .success = cbCall cbOpened 105 .failure) ∧
    (cbCall cbOpened 110 .success).2 = some .success ∧
    (cbCall cbHalfExhausted 111 .success).2 = none ∧
    ((cbIterate 0 .success 2 cbHalf).state = .closed ∧
      (cbIterate 0 .success 2 cbHalf).failure_count = 0) ∧
    (cbCall cbHalf 111 .failure).1.state = .opened :=
  ⟨(C6_circuit_breaker cbClosed 0 .success).1 rfl rfl (by decide),
   (C6_circuit_breaker cbOpened 105 .success).2.1 rfl (by decide),
   (C6_circuit_breaker cbOpened 110 .success).2.2.1 rfl (by decide) (by decide),
   (C6_circuit_breaker cbHalfExhausted 111 .success).2.2.2.1 rfl (by decide),
   (C6_circuit_breaker cbHalf 0 .success).2.2.2.2.1 rfl rfl rfl (by decide),
   (C6_circuit_breaker cbHalf 111 .success).2.2.2.2.2 rfl (by decide)⟩

theorem retryFrom_const_500 (resp : Nat → Nat) (h : ∀ i, resp i = 500) :
    ∀ fuel i, retryFrom resp fuel i = (i + fuel, 500) := by
  intro fuel
  induction fuel with
  | zero =>
    intro i
    simp [retryFrom, h i]
  | succ m ih =>
    intro i
    rw [retryFrom]
    simp only [h i]
    rw [show retryable_status 500 = true by decide]
    simp only [if_true]
    rw [ih (i + 1)]
    congr 1
    omega

/-- Claim C7 (spec-modelled): an upstream that answers 500 on every
attempt is attempted exactly `max_retries` times and the last 500 response
is surfaced unchanged; an upstream answering 400 is attempted exactly once
(400 is not in the retryable set). -/
theorem C7_retry_bounds (max_retries : Nat) (resp : Nat → Nat) :
    (1 ≤ max_retries → (∀ i, resp i = 500) →
      retryCall max_retries resp = (max_retries, 500)) ∧
    ((∀ i, resp i = 400) → retryCall max_retries resp = (1, 400)) := by
  constructor
  · intro hmax h500
    unfold retryCall
    rw [retryFrom_const_500 resp h500 (max_retries - 1) 1]
    congr 1
    omega
  · intro h400
    unfold retryCall
    cases hf : max_retries - 1 with
    | zero => simp [retryFrom, h400 1]
    | succ m =>
      rw [retryFrom]
      simp only [h400 1]
      rw [show retryable_status 400 = false by decide]
      simp

/-- Closed witness for C7 at `max_retries = 3` against constant-500 and
constant-400 upstreams. -/
theorem C7_witness :
    retryCall 3 (fun _ => 500) = (3, 500) ∧ retryCall 3 (fun _ => 400) = (1, 400) :=
  ⟨(C7_retry_bounds 3 (fun _ => 500)).1 (by decide) (fun _ => rfl),
   (C7_retry_bounds 3 (fun _ => 400)).2 (fun _ => rfl)⟩
